import Mathlib

/-!
Shallow embedding of the Kavita content-source plugin
(`src/Kavita/Common.ts`, `src/Kavita/Kavita.ts`, `src/Kavita/Settings.ts`).

Host-provided facilities (state manager, request scheduling, JSON decoding)
are modelled explicitly: the persisted key-value/keychain store is a record of
optional fields, and the network is an oracle function from the request the
code builds to an optional decoded response (`none` models a transport
failure, i.e. a rejected `requestManager.schedule` promise).  Every operation
returns, alongside its result, the list of requests it issued, so that
claims about outbound traffic can be stated.
-/

namespace KavitaSource

/-! ## Data transfer objects (host SDK shapes used by the source) -/

/-- A manga tile as produced by `createMangaTile` (`title`/`subtitleText`
are the `text` fields of the `createIconText` wrappers). -/
structure MangaTile where
  id : String
  title : String
  image : String
  subtitleText : Option String := none
  deriving DecidableEq

/-- The pagination metadata object `{ page: n }` threaded through paged calls. -/
structure SearchMeta where
  page : Nat
  deriving DecidableEq

/-- Result of `createPagedResults`; `metadata = none` models an absent
(`undefined`) continuation token. -/
structure PagedResults where
  results : List MangaTile
  metadata : Option SearchMeta
  deriving DecidableEq

/-- A search filter tag; only its `id` is read by `searchRequest`. -/
structure SearchTag where
  id : String
  deriving DecidableEq

/-- The host's `SearchRequest` object: optional free-text `title` and an
optional list of included tags. -/
structure SearchQuery where
  title : Option String := none
  includedTags : Option (List SearchTag) := none

/-- An outbound request's header map.  The source only ever inspects or sets
the `authorization` entry; the remaining entries are kept abstract. -/
structure HeaderMap where
  authorization : Option String := none
  other : List (String × String) := []
  deriving DecidableEq

/-- An outbound request as built by `createRequestObject`. -/
structure Request where
  url : String
  method : String
  param : String := ""
  headers : Option HeaderMap := none
  deriving DecidableEq

/-- The `metadata` sub-object of a series JSON document. -/
structure SerieMetadata where
  title : String
  lastModified : Int
  deriving DecidableEq

/-- A decoded series item from a `content` array.  `id`/`seriesId`/`name`
mirror the JSON fields the adapter reads (`serie[idProp]`, `serie.name`,
`serie.metadata.title`). -/
structure Serie where
  id : String
  seriesId : String
  name : String
  metadata : SerieMetadata
  deriving DecidableEq

/-- A decoded library item from the `/libraries/` endpoint. -/
structure Library where
  id : String
  name : String
  deriving DecidableEq

/-- A tag entry produced by `createTag`. -/
structure TagEntry where
  id : String
  label : String
  deriving DecidableEq

/-- A tag section produced by `createTagSection`. -/
structure TagSection where
  id : String
  label : String
  tags : List TagEntry
  deriving DecidableEq

/-- A home section as handed to `sectionCallback`. -/
structure HomeSection where
  id : String
  title : String
  view_more : Bool
  items : List MangaTile := []
  deriving DecidableEq

/-- A decoded page descriptor from the chapter endpoint. -/
structure PageDesc where
  mediaType : String
  number : Nat
  deriving DecidableEq

/-- Result of `createChapterDetails`. -/
structure ChapterDetails where
  id : String
  longStrip : Bool
  mangaId : String
  pages : List String
  deriving DecidableEq

/-- The host's `MangaStatus` enumeration. -/
inductive MangaStatus where
  | ONGOING
  | COMPLETED
  | UNKNOWN
  | ABANDONED
  | HIATUS
  deriving DecidableEq

/-! ## Persisted state (host key-value store plus keychain)

One optional field per store key; `none` models a key that was never
written (JS `undefined`). -/

structure State where
  serverAddress : Option String := none
  /-- Value written under the plain-store key `kavitaAPI` by
  `setKavitaServerAddress` (invoked from `setStateData`). -/
  kavitaAPI : Option String := none
  showOnDeck : Option Bool := none
  serverUsername : Option String := none
  serverPassword : Option String := none
  authorization : Option String := none

/-! ## Constants from the source -/

def DEFAULT_KAVITA_SERVER_ADDRESS : String := "https://my.kavita.address"

def DEFAULT_KAVITA_API : String := "/api/"

def DEFAULT_SHOW_ON_DECK : Bool := true

/-- Number of items requested for paged requests. -/
def PAGE_SIZE : Nat := 40

def SUPPORTED_IMAGE_TYPES : List String :=
  ["image/jpeg", "image/png", "image/gif", "image/webp", "application/pdf"]

/-! ## Config store accessors (`Common.ts`) -/

/-- `getAuthorizationString`: keychain `authorization` value, or `''`. -/
def getAuthorizationString (st : State) : String :=
  st.authorization.getD ""

/-- The string value `getKavitaAPI` evaluates to: the stored `serverAddress`,
or (via `??`, which binds after `+`) the default address concatenated with
the default api path. -/
def kavitaApiString (st : State) : String :=
  st.serverAddress.getD (DEFAULT_KAVITA_SERVER_ADDRESS ++ DEFAULT_KAVITA_API)

/-- `getKavitaAPI` as seen by its callers, which compare the result against
`null`: the returned JS value is never `null`/`undefined` because of the
`?? default` fallback, so the embedding always returns `some`. -/
def getKavitaAPI (st : State) : Option String :=
  some (kavitaApiString st)

/-- Options record returned by `getOptions`. -/
structure SourceOptions where
  showOnDeck : Bool
  deriving DecidableEq

/-- `getOptions`: stored `showOnDeck` flag or its default (`true`). -/
def getOptions (st : State) : SourceOptions :=
  { showOnDeck := st.showOnDeck.getD DEFAULT_SHOW_ON_DECK }

/-- `createKavitaAPI`: append `api` when the address already ends in a slash,
else `/api/`. -/
def createKavitaAPI (serverAddress : String) : String :=
  serverAddress ++
    (if serverAddress.data.getLast? = some (Char.ofNat 47) then "api" else "/api/")

/-- `setKavitaServerAddress`: stores the raw address under `serverAddress`
and the derived API root under the `kavitaAPI` key. -/
def setKavitaServerAddress (st : State) (apiUri : String) : State :=
  { st with serverAddress := some apiUri, kavitaAPI := some (createKavitaAPI apiUri) }

/-- `getServerUnavailableMangaTiles`: the placeholder tile list. -/
def getServerUnavailableMangaTiles : List MangaTile :=
  [{ id := "placeholder-id", title := "Server", image := "",
     subtitleText := some "unavailable" }]

/-! ## `parseMangaStatus` and `capitalize` (`Kavita.ts`) -/

/-- `parseMangaStatus`: the source's `switch` over the status string. -/
def parseMangaStatus (kavitaStatus : String) : MangaStatus :=
  if kavitaStatus = "ENDED" then MangaStatus.COMPLETED
  else if kavitaStatus = "ONGOING" then MangaStatus.ONGOING
  else if kavitaStatus = "ABANDONED" then MangaStatus.ONGOING
  else if kavitaStatus = "HIATUS" then MangaStatus.ONGOING
  else MangaStatus.ONGOING

/-- A JS `\w` word character: ASCII letter, digit or underscore. -/
def isWordChar (c : Char) : Bool :=
  decide ((65 ≤ c.toNat ∧ c.toNat ≤ 90) ∨ (97 ≤ c.toNat ∧ c.toNat ≤ 122) ∨
    (48 ≤ c.toNat ∧ c.toNat ≤ 57) ∨ c.toNat = 95)

/-- JS `String.prototype.toUpperCase` restricted to ASCII.  The source only
applies it to a single character matching `\w`, on which Unicode and ASCII
uppercasing agree. -/
def jsToUpperAscii (c : Char) : Char :=
  if 97 ≤ c.toNat ∧ c.toNat ≤ 122 then Char.ofNat (c.toNat - 32) else c

/-- `capitalize`: `tag.replace(/^\w/, c => c.toUpperCase())` — uppercase the
first character when it is a word character, otherwise leave the string
unchanged. -/
def capitalize (tag : String) : String :=
  match tag.data with
  | [] => tag
  | c :: cs => if isWordChar c then String.mk (jsToUpperAscii c :: cs) else tag

/-! ## `encodeURIComponent` and the JS string slicing used by the source -/

/-- Uppercase hexadecimal digit for a value below 16. -/
def hexDigitChar (n : Nat) : Char :=
  if n < 10 then Char.ofNat (48 + n) else Char.ofNat (55 + n)

/-- UTF-8 byte sequence of a Unicode code point. -/
def utf8Bytes (n : Nat) : List Nat :=
  if n < 128 then [n]
  else if n < 2048 then [192 + n / 64, 128 + n % 64]
  else if n < 65536 then [224 + n / 4096, 128 + (n / 64) % 64, 128 + n % 64]
  else [240 + n / 262144, 128 + (n / 4096) % 64, 128 + (n / 64) % 64, 128 + n % 64]

/-- Characters `encodeURIComponent` leaves unescaped:
alphanumerics and `- _ . ! ~ * ' ( )` (given by code point). -/
def isUriUnreserved (c : Char) : Bool :=
  c.isAlphanum || [45, 95, 46, 33, 126, 42, 39, 40, 41].contains c.toNat

/-- JS `encodeURIComponent`: keep unreserved characters, percent-encode the
UTF-8 bytes of every other character with uppercase hex digits. -/
def encodeURIComponent (s : String) : String :=
  String.mk (s.data.flatMap fun c =>
    if isUriUnreserved c then [c]
    else (utf8Bytes c.toNat).flatMap fun b =>
      [Char.ofNat 37, hexDigitChar (b / 16), hexDigitChar (b % 16)])

/-- JS `substr(0, n)` / the first `n` characters of a string. -/
def strTake (s : String) (n : Nat) : String :=
  String.mk (s.data.take n)

/-- JS `substring(n)` / the string with its first `n` characters removed. -/
def strDrop (s : String) (n : Nat) : String :=
  String.mk (s.data.drop n)

/-! ## Search adapter (`Common.ts` `searchRequest`) -/

/-- The query parameters one included tag contributes: the source's four
independent `if` blocks, each pushing when the id starts with the matching
namespace marker. -/
def tagQueryParams (tag : SearchTag) : List String :=
  (if strTake tag.id 4 = "tag-" then
    ["tag=" ++ encodeURIComponent (strDrop tag.id 4)] else [])
  ++ (if strTake tag.id 6 = "genre-" then
    ["genre=" ++ encodeURIComponent (strDrop tag.id 6)] else [])
  ++ (if strTake tag.id 11 = "collection-" then
    ["collection_id=" ++ encodeURIComponent (strDrop tag.id 11)] else [])
  ++ (if strTake tag.id 8 = "library-" then
    ["library_id=" ++ encodeURIComponent (strDrop tag.id 8)] else [])

/-- The optional `search=` parameter: pushed when `title` is defined and
non-empty. -/
def searchTitleParams (q : SearchQuery) : List String :=
  match q.title with
  | none => []
  | some t => if t ≠ "" then ["search=" ++ encodeURIComponent t] else []

/-- `paramsList` as accumulated by `searchRequest`: `page`, `size`, the
optional `search` parameter, then the parameters pushed by the
`includedTags.forEach` loop (push-in-order equals concatenation). -/
def buildSearchParams (q : SearchQuery) (page pageSize : Nat) : List String :=
  ["page=" ++ toString page, "size=" ++ toString pageSize]
  ++ searchTitleParams q
  ++ (match q.includedTags with
      | none => []
      | some tags => tags.flatMap tagQueryParams)

/-- `paramsString`: `'?' + paramsList.join('&')` when the list is non-empty. -/
def searchParamsString (q : SearchQuery) (page pageSize : Nat) : String :=
  let l := buildSearchParams q page pageSize
  if l.length > 0 then "?" ++ String.intercalate "&" l else ""

/-- `metadata?.page ?? 0`. -/
def pageOfMeta (meta : Option SearchMeta) : Nat :=
  match meta with
  | some m => m.page
  | none => 0

/-- The `GET {kavitaAPI}/Series` request `searchRequest` schedules. -/
def searchSeriesRequest (api : String) (q : SearchQuery) (page pageSize : Nat) :
    Request :=
  { url := api ++ "/Series", method := "GET",
    param := searchParamsString q page pageSize }

/-- The tile built for one series item of a search response. -/
def searchTile (api : String) (s : Serie) : MangaTile :=
  { id := s.id, title := s.metadata.title,
    image := api ++ "/series/" ++ s.id ++ "/thumbnail" }

/-- Body of `searchRequest` after the `kavitaAPI === null` guard: build the
request, schedule it (transport failure is caught and mapped to the sentinel
tiles), map the `content` array to tiles, and set the continuation to
`page + 1` unless the page came back empty. -/
def searchRequestMain (api : String) (q : SearchQuery) (meta : Option SearchMeta)
    (server : Request → Option (List Serie)) (pageSize : Nat) :
    PagedResults × List Request :=
  let page := pageOfMeta meta
  let request := searchSeriesRequest api q page pageSize
  match server request with
  | none =>
      ({ results := getServerUnavailableMangaTiles, metadata := none }, [request])
  | some content =>
      let tiles := content.map (searchTile api)
      ({ results := tiles,
         metadata := if tiles.length = 0 then none else some { page := page + 1 } },
       [request])

/-- `searchRequest` (also the body of `Kavita.getSearchResults`): the
`kavitaAPI === null` guard returns the sentinel tiles without scheduling
anything; otherwise the main body runs. -/
def searchRequest (st : State) (q : SearchQuery) (meta : Option SearchMeta)
    (server : Request → Option (List Serie)) (pageSize : Nat) :
    PagedResults × List Request :=
  match getKavitaAPI st with
  | none => ({ results := getServerUnavailableMangaTiles, metadata := none }, [])
  | some api => searchRequestMain api q meta server pageSize

/-! ## Request interceptor (`KavitaRequestInterceptor.interceptRequest`) -/

/-- `interceptRequest`: materialize an empty header map when absent, then
inject the stored authorization string only when the request carries no
authorization entry of its own. -/
def interceptRequest (st : State) (req : Request) : Request :=
  let hs := match req.headers with
    | none => ({} : HeaderMap)
    | some h => h
  let hs2 := match hs.authorization with
    | none => { hs with authorization := some (getAuthorizationString st) }
    | some _ => hs
  { req with headers := some hs2 }

/-! ## Tag/facet adapter (`Kavita.getTags`) -/

/-- The `GET {kavitaAPI}/libraries/` request. -/
def libraryRequest (api : String) : Request :=
  { url := api ++ "/libraries/", method := "GET" }

/-- `Kavita.getTags`: the whole fetch sits in a `try` block whose `catch`
returns the placeholder section; on success each library becomes a tag with
a `library-` id marker and a capitalized label. -/
def getTags (st : State) (server : Request → Option (List Library)) :
    List TagSection × List Request :=
  let api := kavitaApiString st
  let req := libraryRequest api
  match server req with
  | none =>
      ([{ id := "-1", label := "Server unavailable", tags := [] }], [req])
  | some libs =>
      ([{ id := "0", label := "libraries",
          tags := libs.map fun elem =>
            { id := "library-" ++ elem.id, label := capitalize elem.name } }],
       [req])

/-! ## Home feed adapter (`Kavita.getHomePageSections`) -/

/-- The per-section request data chosen by the `switch` on `section.id`.
`idProp` names the JSON field used for the tile id (`serie[idProp]`). -/
structure SectionReqInfo where
  apiPath : String
  thumbPath : String
  params : String
  idProp : String
  deriving DecidableEq

/-- The `switch (section.id)` of `getHomePageSections`. -/
def homeSectionRequestInfo (api sectionId : String) : SectionReqInfo :=
  if sectionId = "ondeck" then
    { apiPath := api ++ "/Series/on-deck/", thumbPath := api ++ "/Image",
      params := "?libraryId=0", idProp := "id" }
  else if sectionId = "recently-added" then
    { apiPath := api ++ "/Series/recently-added/", thumbPath := api ++ "/Image",
      params := "?libraryId=0", idProp := "seriesId" }
  else if sectionId = "recently-updated" then
    { apiPath := api ++ "/Series/recently-updated-series/",
      thumbPath := api ++ "/Image", params := "?libraryId=0",
      idProp := "seriesId" }
  else
    { apiPath := api ++ "/Series/" ++ sectionId, thumbPath := api ++ "/Image",
      params := "?page=0&size=20&deleted=false", idProp := "id" }

/-- The sentinel section of the `kavitaAPI === null` guard branch. -/
def unsetHomeSection : HomeSection :=
  { id := "unset",
    title := "Go to source settings to set your Kavita server credentials.",
    view_more := false, items := getServerUnavailableMangaTiles }

/-- The tile built for one item of a home-section response. -/
def homeSectionTile (info : SectionReqInfo) (s : Serie) : MangaTile :=
  { id := if info.idProp = "id" then s.id else s.seriesId,
    title := s.name,
    image := info.thumbPath ++ "/series-cover?seriesId=" ++ s.id }

/-- Trace of one `getHomePageSections` run: every `sectionCallback`
invocation in order, the scheduled requests, and whether the surrounding
promise resolved (`ok = false` models `Promise.all` rejecting, i.e. the
function throwing). -/
structure HomeRun where
  callbacks : List HomeSection
  requests : List Request
  ok : Bool
  deriving DecidableEq

/-- Fetch of a single home section: the loading callback fires before the
request is scheduled; on success a second callback delivers the tiles, on
transport failure the section's promise rejects. -/
def homeSectionFetch (api : String) (server : Request → Option (List Serie))
    (sec : HomeSection) : HomeRun :=
  let info := homeSectionRequestInfo api sec.id
  let req : Request := { url := info.apiPath, method := "GET", param := info.params }
  match server req with
  | none => { callbacks := [sec], requests := [req], ok := false }
  | some content =>
      { callbacks := [sec, { sec with items := content.map (homeSectionTile info) }],
        requests := [req], ok := true }

/-- Body of `getHomePageSections` after the `kavitaAPI === null` guard.
The source builds at most one section (`ondeck`, the others are commented
out), so processing the section list sequentially is an exact model of the
concurrent `Promise.all`. -/
def getHomePageSectionsMain (st : State) (api : String)
    (server : Request → Option (List Serie)) : HomeRun :=
  let opts := getOptions st
  let sections : List HomeSection :=
    if opts.showOnDeck then [{ id := "ondeck", title := "On Deck", view_more := true }]
    else []
  sections.foldl
    (fun acc sec =>
      let r := homeSectionFetch api server sec
      { callbacks := acc.callbacks ++ r.callbacks,
        requests := acc.requests ++ r.requests,
        ok := acc.ok && r.ok })
    { callbacks := [], requests := [], ok := true }

/-- `Kavita.getHomePageSections`: the guard branch emits the sentinel section
and schedules nothing; otherwise the main body runs. -/
def getHomePageSections (st : State) (server : Request → Option (List Serie)) :
    HomeRun :=
  match getKavitaAPI st with
  | none => { callbacks := [unsetHomeSection], requests := [], ok := true }
  | some api => getHomePageSectionsMain st api server

/-! ## View-more adapter (`Kavita.getViewMoreItems`) -/

/-- The request `getViewMoreItems` schedules for a section page. -/
def viewMoreRequest (api sectionId : String) (page : Nat) : Request :=
  { url := api ++ "/series/" ++ sectionId, method := "GET",
    param := "?page=" ++ toString page ++ "&size=" ++ toString PAGE_SIZE
      ++ "&deleted=false" }

/-- `Kavita.getViewMoreItems`: no `try`/`catch`, so a transport failure
propagates (modelled by `none`); otherwise tiles are built and the
continuation is `page + 1` unless the page came back empty. -/
def getViewMoreItems (st : State) (homepageSectionId : String)
    (meta : Option SearchMeta) (server : Request → Option (List Serie)) :
    Option PagedResults × List Request :=
  let api := kavitaApiString st
  let page := pageOfMeta meta
  let req := viewMoreRequest api homepageSectionId page
  match server req with
  | none => (none, [req])
  | some content =>
      let tiles := content.map (searchTile api)
      (some { results := tiles,
              metadata := if tiles.length = 0 then none
                else some { page := page + 1 } },
       [req])

/-! ## Chapter-details adapter (`Kavita.getChapterDetails`) -/

/-- The request `getChapterDetails` schedules (the query lives in the url). -/
def chapterRequest (api chapterId : String) : Request :=
  { url := api ++ "/Series/chapter?chapterID=" ++ chapterId, method := "GET" }

/-- The image URL built for one kept page descriptor. -/
def chapterPageUrl (api chapterId : String) (page : PageDesc) : String :=
  api ++ "/Reader/image?chapterID=" ++ chapterId ++ "/pages/"
    ++ toString page.number

/-- The `for` loop of `getChapterDetails`: push a URL for each page whose
`mediaType` is in `SUPPORTED_IMAGE_TYPES`, silently skip the rest. -/
def chapterPages (api chapterId : String) : List PageDesc → List String
  | [] => []
  | page :: rest =>
      if SUPPORTED_IMAGE_TYPES.contains page.mediaType then
        chapterPageUrl api chapterId page :: chapterPages api chapterId rest
      else
        chapterPages api chapterId rest

/-- `Kavita.getChapterDetails`: no `try`/`catch`, a transport failure
propagates (`none`). -/
def getChapterDetails (st : State) (mangaId chapterId : String)
    (server : Request → Option (List PageDesc)) :
    Option ChapterDetails × List Request :=
  let api := kavitaApiString st
  let req := chapterRequest api chapterId
  match server req with
  | none => (none, [req])
  | some result =>
      (some { id := chapterId, longStrip := false, mangaId := mangaId,
              pages := chapterPages api chapterId result },
       [req])

/-! ## Update-poll adapter (`Kavita.filterUpdatedManga`)

The loop body compares JS values of different shapes: `ids` is an array of
strings while each `serie` of `result.content` is a decoded JSON object, and
the source runs `ids.includes(serie)` and `foundIds.push(serie)` on the raw
object.  `JsVal` models the two value shapes and `sameValueZero` the
SameValueZero comparison `Array.prototype.includes` performs: a string and
an object are never equal. -/

/-- A decoded item of the `series/updated/` feed (fields the loop reads). -/
structure UpdatedSerie where
  id : String
  lastModified : Int
  deriving DecidableEq

/-- A JS value that can appear in the `ids`/`foundIds` arrays: a string, or
a reference to a decoded series object. -/
inductive JsVal where
  | str (s : String)
  | serieRef (s : UpdatedSerie)
  deriving DecidableEq

/-- SameValueZero, as used by `Array.prototype.includes`.  Values of
different shapes are never equal; two object references are equal only when
they are the same object (each decoded entry is a fresh object, and the
code never compares two objects, so structural identity is exact here). -/
def sameValueZero : JsVal → JsVal → Bool
  | JsVal.str a, JsVal.str b => a = b
  | JsVal.serieRef a, JsVal.serieRef b => a = b
  | _, _ => false

/-- `arr.includes(v)`. -/
def jsIncludes (arr : List JsVal) (v : JsVal) : Bool :=
  arr.any fun x => sameValueZero x v

/-- The `for (const serie of result.content)` body: accumulate entries that
are at or after the threshold and pass the `ids.includes(serie)` check; the
first older entry clears `loadMore` and breaks.  Returns the accumulated
array and the value of `loadMore` contributed by the entry walk. -/
def processUpdatedEntries (time : Int) (ids : List JsVal) :
    List UpdatedSerie → List JsVal → List JsVal × Bool
  | [], found => (found, true)
  | serie :: rest, found =>
      if time ≤ serie.lastModified then
        if jsIncludes ids (JsVal.serieRef serie) then
          processUpdatedEntries time ids rest (found ++ [JsVal.serieRef serie])
        else
          processUpdatedEntries time ids rest found
      else
        (found, false)

/-- The request scheduled for one page of the `series/updated/` feed. -/
def updatedRequest (api : String) (page : Nat) : Request :=
  { url := api ++ "/series/updated/", method := "GET",
    param := "?page=" ++ toString page ++ "&size=" ++ toString PAGE_SIZE
      ++ "&deleted=false" }

/-- Outcome of an update-poll run. -/
inductive ScanOutcome where
  | ok
  | serverError
  | outOfFuel
  deriving DecidableEq

/-- Trace of a `filterUpdatedManga` run: the argument of every
`mangaUpdatesFoundCallback` invocation in order, the scheduled requests,
and how the loop ended. -/
structure ScanResult where
  callbacks : List (List JsVal)
  requests : List Request
  outcome : ScanOutcome
  deriving DecidableEq

/-- The `while (loadMore)` loop.  The server oracle is indexed by the page
number (the only varying part of the request).  `fuel` bounds the number of
iterations so the function is total; every claim is settled at a fuel large
enough that the bound is never the reason the loop stops. -/
def filterUpdatedMangaLoop (api : String)
    (server : Nat → Option (List UpdatedSerie)) (time : Int)
    (idVals : List JsVal) : Nat → Nat → List JsVal → ScanResult
  | 0, _, _ => { callbacks := [], requests := [], outcome := ScanOutcome.outOfFuel }
  | fuel + 1, page, found =>
      let req := updatedRequest api page
      match server page with
      | none =>
          { callbacks := [], requests := [req],
            outcome := ScanOutcome.serverError }
      | some content =>
          let walk := processUpdatedEntries time idVals content found
          let loadMore := walk.2 && !content.isEmpty
          let cbs : List (List JsVal) :=
            if walk.1.length > 0 then [walk.1] else []
          if loadMore then
            let r := filterUpdatedMangaLoop api server time idVals fuel
              (page + 1) walk.1
            { callbacks := cbs ++ r.callbacks, requests := req :: r.requests,
              outcome := r.outcome }
          else
            { callbacks := cbs, requests := [req], outcome := ScanOutcome.ok }

/-- `Kavita.filterUpdatedManga`: start at page 0 with an empty `foundIds`;
the candidate ids arrive as an array of strings. -/
def filterUpdatedManga (st : State) (server : Nat → Option (List UpdatedSerie))
    (time : Int) (ids : List String) (fuel : Nat) : ScanResult :=
  filterUpdatedMangaLoop (kavitaApiString st) server time (ids.map JsVal.str)
    fuel 0 []

/-! ## Claim-side definitions

Definitions written from the specification's words, to be compared with the
source-side definitions above. -/

/-- Claim-side capitalization, following the spec's words: the library name
with only its first character uppercased, all other characters unchanged. -/
def specCapitalize (s : String) : String :=
  match s.data with
  | [] => s
  | c :: cs => String.mk (jsToUpperAscii c :: cs)

/-- Claim-side tag-to-parameter mapping, following the spec's words: one
parameter for the matching namespace marker with the marker stripped from
the value, nothing for an unrecognized or missing one. -/
def specTagQueryParams (tag : SearchTag) : List String :=
  if strTake tag.id 4 = "tag-" then
    ["tag=" ++ encodeURIComponent (strDrop tag.id 4)]
  else if strTake tag.id 6 = "genre-" then
    ["genre=" ++ encodeURIComponent (strDrop tag.id 6)]
  else if strTake tag.id 11 = "collection-" then
    ["collection_id=" ++ encodeURIComponent (strDrop tag.id 11)]
  else if strTake tag.id 8 = "library-" then
    ["library_id=" ++ encodeURIComponent (strDrop tag.id 8)]
  else []

/-- The authorization entry of a request, absent when the request has no
header map or no such entry. -/
def requestAuth (req : Request) : Option String :=
  match req.headers with
  | none => none
  | some h => h.authorization

/-- The update-poll scenario of the spec: page 0 holds entry `a` modified at
`t3 = 2` and entry `b` modified at `t1 = 0` (threshold `t2 = 1`); every
later page is empty. -/
def updatedScenarioServer : Nat → Option (List UpdatedSerie) :=
  fun page =>
    if page = 0 then
      some [{ id := "a", lastModified := 2 }, { id := "b", lastModified := 0 }]
    else some []

/-! ## Helper lemmas -/

lemma jsToUpperAscii_of_not_wordChar {c : Char} (h : isWordChar c = false) :
    jsToUpperAscii c = c := by
  unfold isWordChar at h
  unfold jsToUpperAscii
  rw [if_neg]
  intro hc
  simp only [decide_eq_false_iff_not] at h
  exact h (Or.inr (Or.inl hc))

lemma capitalize_eq_specCapitalize (s : String) :
    capitalize s = specCapitalize s := by
  unfold capitalize specCapitalize
  cases hs : s.data with
  | nil => rfl
  | cons c cs =>
    by_cases hw : isWordChar c
    · simp [hw]
    · simp only [Bool.not_eq_true] at hw
      simp only [hw, Bool.false_eq_true, if_false, jsToUpperAscii_of_not_wordChar hw]
      cases s
      simp_all

lemma chapterPages_eq_filter (api chapterId : String) (l : List PageDesc) :
    chapterPages api chapterId l =
      (l.filter fun p => SUPPORTED_IMAGE_TYPES.contains p.mediaType).map
        (chapterPageUrl api chapterId) := by
  induction l with
  | nil => rfl
  | cons p rest ih =>
    unfold chapterPages
    by_cases hp : p.mediaType ∈ SUPPORTED_IMAGE_TYPES <;>
      simp [hp, List.filter_cons, ih]

lemma takeFirstChar {l : List Char} {n : Nat} {c : Char} {cs : List Char}
    (h : l.take n = c :: cs) : l.take 1 = [c] := by
  have hn : 1 ≤ n := by
    rcases n with _ | n
    · simp at h
    · omega
  have h2 : (l.take n).take 1 = l.take 1 := by
    rw [List.take_take]
    congr 1
    omega
  rw [h] at h2
  simpa using h2.symm

lemma takeClash {l : List Char} {m n : Nat} {c d : Char} {cs ds : List Char}
    (h1 : l.take m = c :: cs) (h2 : l.take n = d :: ds) : c = d := by
  have a := takeFirstChar h1
  have b := takeFirstChar h2
  rw [a] at b
  simpa using b

lemma tagQueryParams_eq_spec (t : SearchTag) :
    tagQueryParams t = specTagQueryParams t := by
  unfold tagQueryParams specTagQueryParams
  by_cases h1 : strTake t.id 4 = "tag-"
  · have d1 : t.id.data.take 4 = ['t', 'a', 'g', '-'] := congrArg String.data h1
    have h2 : ¬ strTake t.id 6 = "genre-" := by
      intro h
      have d2 : t.id.data.take 6 = ['g', 'e', 'n', 'r', 'e', '-'] :=
        congrArg String.data h
      exact absurd (takeClash d1 d2) (by decide)
    have h3 : ¬ strTake t.id 11 = "collection-" := by
      intro h
      have d3 : t.id.data.take 11 =
          ['c', 'o', 'l', 'l', 'e', 'c', 't', 'i', 'o', 'n', '-'] :=
        congrArg String.data h
      exact absurd (takeClash d1 d3) (by decide)
    have h4 : ¬ strTake t.id 8 = "library-" := by
      intro h
      have d4 : t.id.data.take 8 = ['l', 'i', 'b', 'r', 'a', 'r', 'y', '-'] :=
        congrArg String.data h
      exact absurd (takeClash d1 d4) (by decide)
    simp [h1, h2, h3, h4]
  · by_cases h2 : strTake t.id 6 = "genre-"
    · have d2 : t.id.data.take 6 = ['g', 'e', 'n', 'r', 'e', '-'] :=
        congrArg String.data h2
      have h3 : ¬ strTake t.id 11 = "collection-" := by
        intro h
        have d3 : t.id.data.take 11 =
            ['c', 'o', 'l', 'l', 'e', 'c', 't', 'i', 'o', 'n', '-'] :=
          congrArg String.data h
        exact absurd (takeClash d2 d3) (by decide)
      have h4 : ¬ strTake t.id 8 = "library-" := by
        intro h
        have d4 : t.id.data.take 8 = ['l', 'i', 'b', 'r', 'a', 'r', 'y', '-'] :=
          congrArg String.data h
        exact absurd (takeClash d2 d4) (by decide)
      simp [h1, h2, h3, h4]
    · by_cases h3 : strTake t.id 11 = "collection-"
      · have d3 : t.id.data.take 11 =
            ['c', 'o', 'l', 'l', 'e', 'c', 't', 'i', 'o', 'n', '-'] :=
          congrArg String.data h3
        have h4 : ¬ strTake t.id 8 = "library-" := by
          intro h
          have d4 : t.id.data.take 8 = ['l', 'i', 'b', 'r', 'a', 'r', 'y', '-'] :=
            congrArg String.data h
          exact absurd (takeClash d3 d4) (by decide)
        simp [h1, h2, h3, h4]
      · by_cases h4 : strTake t.id 8 = "library-" <;> simp [h1, h2, h3, h4]

lemma jsIncludes_str_serieRef (ids : List String) (s : UpdatedSerie) :
    jsIncludes (ids.map JsVal.str) (JsVal.serieRef s) = false := by
  induction ids with
  | nil => rfl
  | cons i rest ih =>
      simp only [List.map_cons, jsIncludes, List.any_cons, sameValueZero]
      simp [jsIncludes] at ih
      simp [ih]

lemma processUpdatedEntries_str_fst (time : Int) (ids : List String)
    (content : List UpdatedSerie) :
    (processUpdatedEntries time (ids.map JsVal.str) content []).1 = [] := by
  induction content with
  | nil => rfl
  | cons s rest ih =>
      unfold processUpdatedEntries
      by_cases hm : time ≤ s.lastModified
      · simp [hm, jsIncludes_str_serieRef, ih]
      · simp [hm]

lemma filterUpdatedMangaLoop_str_callbacks (api : String)
    (server : Nat → Option (List UpdatedSerie)) (time : Int)
    (ids : List String) :
    ∀ (fuel page : Nat),
      (filterUpdatedMangaLoop api server time (ids.map JsVal.str)
        fuel page []).callbacks = [] := by
  intro fuel
  induction fuel with
  | zero => intro page; rfl
  | succ fuel ih =>
      intro page
      unfold filterUpdatedMangaLoop
      cases hs : server page with
      | none => rfl
      | some content =>
          simp only [processUpdatedEntries_str_fst, List.length_nil,
            gt_iff_lt, Nat.lt_irrefl, if_false]
          split
          · simpa using ih (page + 1)
          · simp

/-! ## Claim theorems -/

/-- Claim C1, counterexample: with the whole config store unset, a search
call, a tags call and a home-section call each issue exactly one outbound
request (the claim asserts they issue zero).  The `?? default` fallback in
`getKavitaAPI` makes the unset state indistinguishable from a configured
server at the placeholder address. -/
theorem unset_credentials_issue_requests :
    (searchRequest {} {} none (fun _ => none) PAGE_SIZE).2.length = 1
    ∧ (getTags {} (fun _ => none)).2.length = 1
    ∧ (getHomePageSections {} (fun _ => none)).requests.length = 1 := by
  refine ⟨rfl, rfl, rfl⟩

/-- Claim C1, amended: with the config store unset, each of the three calls
issues exactly one request against the default placeholder address; when
that request fails, search and tags return their sentinel results, while
the home-section call emits only its loading section and propagates the
failure instead of returning a sentinel. -/
theorem unset_credentials_one_request :
    ∀ (q : SearchQuery) (meta : Option SearchMeta)
      (server : Request → Option (List Serie))
      (serverTags : Request → Option (List Library)),
      (∀ r, server r = none) → (∀ r, serverTags r = none) →
      (searchRequest {} q meta server PAGE_SIZE =
        ({ results := getServerUnavailableMangaTiles, metadata := none },
         [searchSeriesRequest (DEFAULT_KAVITA_SERVER_ADDRESS ++ DEFAULT_KAVITA_API)
            q (pageOfMeta meta) PAGE_SIZE]))
      ∧ (getTags {} serverTags =
        ([{ id := "-1", label := "Server unavailable", tags := [] }],
         [libraryRequest (DEFAULT_KAVITA_SERVER_ADDRESS ++ DEFAULT_KAVITA_API)]))
      ∧ (getHomePageSections {} server =
        { callbacks := [{ id := "ondeck", title := "On Deck", view_more := true }],
          requests := [{ url := DEFAULT_KAVITA_SERVER_ADDRESS ++ DEFAULT_KAVITA_API
              ++ "/Series/on-deck/", method := "GET", param := "?libraryId=0" }],
          ok := false }) := by
  intro q meta server serverTags hs ht
  refine ⟨?_, ?_, ?_⟩
  · simp [searchRequest, getKavitaAPI, searchRequestMain, hs _, kavitaApiString]
  · simp [getTags, ht _, kavitaApiString, libraryRequest]
  · simp [getHomePageSections, getKavitaAPI, getHomePageSectionsMain, getOptions,
      homeSectionFetch, homeSectionRequestInfo, hs _, kavitaApiString,
      DEFAULT_SHOW_ON_DECK]

/-- Witness for the amended claim C1, at the unset store and an unreachable
server. -/
theorem unset_credentials_one_request_witness :
    (searchRequest {} {} none (fun _ => none) PAGE_SIZE).1 =
      { results := getServerUnavailableMangaTiles, metadata := none }
    ∧ (getTags {} (fun _ => none)).1 =
      [{ id := "-1", label := "Server unavailable", tags := [] }] := by
  have h := unset_credentials_one_request {} none (fun _ => none) (fun _ => none)
    (fun _ => rfl) (fun _ => rfl)
  exact ⟨by rw [h.1], by rw [h.2.1]⟩

/-- Claim C2 (code bug): in the spec's update-poll scenario — page 0 holding
`a` (modified at 2) and `b` (modified at 0), threshold 1, candidate ids
`a`/`b` — the code invokes the callback zero times and stops after the one
page-0 request, because `ids.includes(serie)` compares the decoded series
object against the id strings (never equal under SameValueZero), so nothing
is ever accumulated; moreover the callback is never invoked on any input
whatsoever. -/
theorem filterUpdatedManga_never_reports :
    ((filterUpdatedManga {} updatedScenarioServer 1 ["a", "b"] 10).callbacks = []
      ∧ (filterUpdatedManga {} updatedScenarioServer 1 ["a", "b"] 10).requests =
        [updatedRequest (DEFAULT_KAVITA_SERVER_ADDRESS ++ DEFAULT_KAVITA_API) 0]
      ∧ (filterUpdatedManga {} updatedScenarioServer 1 ["a", "b"] 10).outcome =
        ScanOutcome.ok)
    ∧ ∀ (st : State) (server : Nat → Option (List UpdatedSerie)) (time : Int)
        (ids : List String) (fuel : Nat),
        (filterUpdatedManga st server time ids fuel).callbacks = [] := by
  refine ⟨⟨rfl, rfl, rfl⟩, ?_⟩
  intro st server time ids fuel
  exact filterUpdatedMangaLoop_str_callbacks (kavitaApiString st) server time ids fuel 0

/-- Claim C3: the interceptor leaves a present authorization entry unchanged
and injects the stored authorization string exactly when the entry is
absent. -/
theorem interceptRequest_auth :
    ∀ (st : State) (req : Request),
      (∀ a, requestAuth req = some a →
        requestAuth (interceptRequest st req) = some a)
      ∧ (requestAuth req = none →
        requestAuth (interceptRequest st req) = some (getAuthorizationString st)) := by
  intro st req
  rcases hh : req.headers with _ | h
  · refine ⟨?_, ?_⟩
    · intro a ha
      simp [requestAuth, hh] at ha
    · intro _
      simp [interceptRequest, requestAuth, hh]
  · rcases hauth : h.authorization with _ | a
    · refine ⟨?_, ?_⟩
      · intro a ha
        simp [requestAuth, hh, hauth] at ha
      · intro _
        simp [interceptRequest, requestAuth, hh, hauth]
    · refine ⟨?_, ?_⟩
      · intro b hb
        simp only [requestAuth, hh] at hb
        simp [interceptRequest, requestAuth, hh, hauth, ← hb]
      · intro hnone
        simp [requestAuth, hh, hauth] at hnone

/-- Witness for claim C3: a pre-set trial header survives; an absent header
receives the stored string. -/
theorem interceptRequest_auth_witness :
    requestAuth (interceptRequest { authorization := some "stored" }
      { url := "u", method := "GET",
        headers := some { authorization := some "trial" } }) = some "trial"
    ∧ requestAuth (interceptRequest { authorization := some "stored" }
      { url := "u", method := "GET" }) = some "stored" := by
  constructor
  · exact (interceptRequest_auth { authorization := some "stored" }
      { url := "u", method := "GET",
        headers := some { authorization := some "trial" } }).1 "trial" rfl
  · exact (interceptRequest_auth { authorization := some "stored" }
      { url := "u", method := "GET" }).2 rfl

/-- Claim C4: the emitted query parameters are `page`, `size`, the optional
`search`, and per included tag exactly the parameter given by the spec-side
mapping (tag/genre/collection_id/library_id with the marker stripped); a
tag id with any other or missing marker contributes nothing. -/
theorem searchRequest_tag_query_params :
    (∀ (q : SearchQuery) (page ps : Nat),
      buildSearchParams q page ps =
        ["page=" ++ toString page, "size=" ++ toString ps]
        ++ searchTitleParams q
        ++ ((q.includedTags.getD []).flatMap specTagQueryParams))
    ∧ (∀ t : SearchTag, strTake t.id 4 ≠ "tag-" → strTake t.id 6 ≠ "genre-" →
        strTake t.id 11 ≠ "collection-" → strTake t.id 8 ≠ "library-" →
        tagQueryParams t = []) := by
  constructor
  · intro q page ps
    unfold buildSearchParams
    cases ht : q.includedTags with
    | none => simp [ht]
    | some tags =>
        simp [ht, show tagQueryParams = specTagQueryParams from
          funext tagQueryParams_eq_spec]
  · intro t h1 h2 h3 h4
    unfold tagQueryParams
    simp [h1, h2, h3, h4]

/-- Witness for claim C4: unrecognized tag ids emit no parameter. -/
theorem searchRequest_tag_query_params_witness :
    tagQueryParams { id := "unknown-7" } = []
    ∧ tagQueryParams { id := "other" } = [] := by
  constructor
  · exact searchRequest_tag_query_params.2 { id := "unknown-7" }
      (by decide) (by decide) (by decide) (by decide)
  · exact searchRequest_tag_query_params.2 { id := "other" }
      (by decide) (by decide) (by decide) (by decide)

/-- Claim C5: when the scheduled request fails, `searchRequest` returns the
single sentinel tile with an absent continuation and propagates no error. -/
theorem searchRequest_transport_failure_sentinel :
    ∀ (st : State) (q : SearchQuery) (meta : Option SearchMeta)
      (server : Request → Option (List Serie)) (pageSize : Nat),
      server (searchSeriesRequest (kavitaApiString st) q (pageOfMeta meta) pageSize)
        = none →
      (searchRequest st q meta server pageSize).1 =
        { results := getServerUnavailableMangaTiles, metadata := none } := by
  intro st q meta server ps h
  simp [searchRequest, getKavitaAPI, searchRequestMain, h]

/-- Witness for claim C5, at an unreachable server. -/
theorem searchRequest_transport_failure_sentinel_witness :
    (searchRequest {} {} none (fun _ => none) PAGE_SIZE).1 =
      { results := getServerUnavailableMangaTiles, metadata := none } :=
  searchRequest_transport_failure_sentinel {} {} none (fun _ => none) PAGE_SIZE rfl

/-- Claim C6: for both paged listings, a successful page response with an
empty item sequence yields no continuation token, and a non-empty one
yields continuation `page + 1`. -/
theorem paged_empty_no_continuation :
    ∀ (st : State) (q : SearchQuery) (meta : Option SearchMeta)
      (sectionId : String) (server1 server2 : Request → Option (List Serie))
      (ps : Nat) (c1 c2 : List Serie),
      (server1 (searchSeriesRequest (kavitaApiString st) q (pageOfMeta meta) ps)
          = some c1 →
        (searchRequest st q meta server1 ps).1 =
          { results := c1.map (searchTile (kavitaApiString st)),
            metadata := if c1 = [] then none
              else some { page := pageOfMeta meta + 1 } })
      ∧ (server2 (viewMoreRequest (kavitaApiString st) sectionId (pageOfMeta meta))
          = some c2 →
        (getViewMoreItems st sectionId meta server2).1 =
          some { results := c2.map (searchTile (kavitaApiString st)),
                 metadata := if c2 = [] then none
                   else some { page := pageOfMeta meta + 1 } }) := by
  intro st q meta sectionId server1 server2 ps c1 c2
  constructor
  · intro h
    simp only [searchRequest, getKavitaAPI, searchRequestMain, h]
    rcases c1 with _ | ⟨s, rest⟩ <;> simp
  · intro h
    simp only [getViewMoreItems, h]
    rcases c2 with _ | ⟨s, rest⟩ <;> simp

/-- Witness for claim C6: empty pages produce absent continuations in both
listings. -/
theorem paged_empty_no_continuation_witness :
    (searchRequest {} {} none (fun _ => some []) PAGE_SIZE).1 =
      { results := [], metadata := none }
    ∧ (getViewMoreItems {} "ondeck" (some { page := 3 }) (fun _ => some [])).1 =
      some { results := [], metadata := none } := by
  constructor
  · have := (paged_empty_no_continuation {} {} none "ondeck"
      (fun _ => some []) (fun _ => some []) PAGE_SIZE [] []).1 rfl
    simpa using this
  · have := (paged_empty_no_continuation {} {} (some { page := 3 }) "ondeck"
      (fun _ => some []) (fun _ => some []) PAGE_SIZE [] []).2 rfl
    simpa using this

/-- Claim C7: `parseMangaStatus` is total — `ENDED` maps to Completed and
every other string, including the three named ongoing variants, maps to
Ongoing. -/
theorem parseMangaStatus_total :
    (∀ s : String, parseMangaStatus s =
      if s = "ENDED" then MangaStatus.COMPLETED else MangaStatus.ONGOING)
    ∧ parseMangaStatus "ENDED" = MangaStatus.COMPLETED
    ∧ parseMangaStatus "ONGOING" = MangaStatus.ONGOING
    ∧ parseMangaStatus "ABANDONED" = MangaStatus.ONGOING
    ∧ parseMangaStatus "HIATUS" = MangaStatus.ONGOING := by
  refine ⟨?_, rfl, rfl, rfl, rfl⟩
  intro s
  unfold parseMangaStatus
  by_cases h1 : s = "ENDED"
  · simp [h1]
  · by_cases h2 : s = "ONGOING" <;> by_cases h3 : s = "ABANDONED" <;>
      by_cases h4 : s = "HIATUS" <;> simp [h1, h2, h3, h4]

/-- Claim C8: the output page URLs are exactly the pages with a supported
media type, in input order; in particular the four-type example keeps
exactly three pages. -/
theorem getChapterDetails_filters_pages :
    (∀ (st : State) (mangaId chapterId : String)
        (server : Request → Option (List PageDesc)) (result : List PageDesc),
      server (chapterRequest (kavitaApiString st) chapterId) = some result →
      (getChapterDetails st mangaId chapterId server).1 =
        some { id := chapterId, longStrip := false, mangaId := mangaId,
               pages := (result.filter fun p =>
                   SUPPORTED_IMAGE_TYPES.contains p.mediaType).map
                 (chapterPageUrl (kavitaApiString st) chapterId) })
    ∧ (chapterPages "" "c"
        [{ mediaType := "image/jpeg", number := 0 },
         { mediaType := "image/png", number := 1 },
         { mediaType := "application/x-unknown", number := 2 },
         { mediaType := "image/webp", number := 3 }]).length = 3 := by
  constructor
  · intro st mangaId chapterId server result h
    simp [getChapterDetails, h, chapterPages_eq_filter]
  · rfl

/-- Witness for claim C8, at the spec's four-media-type page list. -/
theorem getChapterDetails_filters_pages_witness :
    (getChapterDetails {} "m" "c" (fun _ => some
      [{ mediaType := "image/jpeg", number := 0 },
       { mediaType := "image/png", number := 1 },
       { mediaType := "application/x-unknown", number := 2 },
       { mediaType := "image/webp", number := 3 }])).1 =
      some { id := "c", longStrip := false, mangaId := "m",
             pages := (([{ mediaType := "image/jpeg", number := 0 },
                 { mediaType := "image/png", number := 1 },
                 { mediaType := "application/x-unknown", number := 2 },
                 { mediaType := "image/webp", number := 3 }] : List PageDesc).filter
                   fun p => SUPPORTED_IMAGE_TYPES.contains p.mediaType).map
               (chapterPageUrl (kavitaApiString {}) "c") } :=
  (getChapterDetails_filters_pages).1 {} "m" "c" _ _ rfl

/-- Claim C9: each library becomes a facet entry with the `library-` marker
prepended to its id and its name first-character-uppercased (matching the
spec-side `specCapitalize`), with the two example names checked. -/
theorem getTags_library_facets :
    (∀ (st : State) (server : Request → Option (List Library))
        (libs : List Library),
      server (libraryRequest (kavitaApiString st)) = some libs →
      getTags st server =
        ([{ id := "0", label := "libraries",
            tags := libs.map fun elem =>
              { id := "library-" ++ elem.id,
                label := specCapitalize elem.name } }],
         [libraryRequest (kavitaApiString st)]))
    ∧ capitalize "action" = "Action" ∧ capitalize "sci fi" = "Sci fi" := by
  refine ⟨?_, rfl, rfl⟩
  intro st server libs h
  simp [getTags, h, capitalize_eq_specCapitalize]

/-- Witness for claim C9, at a two-library response. -/
theorem getTags_library_facets_witness :
    (getTags {} (fun _ => some
      [{ id := "1", name := "action" }, { id := "2", name := "sci fi" }])).1 =
      [{ id := "0", label := "libraries",
         tags := [{ id := "library-1", label := "Action" },
                  { id := "library-2", label := "Sci fi" }] }] := by
  have h := (getTags_library_facets).1 {} (fun _ => some
    [{ id := "1", name := "action" }, { id := "2", name := "sci fi" }])
    [{ id := "1", name := "action" }, { id := "2", name := "sci fi" }] rfl
  rw [h]
  rfl

/-- Claim C10: `getKavitaAPI` always returns a (non-null) string — the
stored address or the default — so the `kavitaAPI === null` guard branches
of `searchRequest` and `getHomePageSections` are unreachable, and the
derived API root that `setStateData` (via `setKavitaServerAddress`) stores
under the `kavitaAPI` key is never read: every operation is invariant under
that field. -/
theorem getKavitaAPI_nonnull_guards_dead :
    ∀ st : State,
      getKavitaAPI st = some (st.serverAddress.getD
        (DEFAULT_KAVITA_SERVER_ADDRESS ++ DEFAULT_KAVITA_API))
      ∧ (∀ q meta server ps, searchRequest st q meta server ps =
          searchRequestMain (kavitaApiString st) q meta server ps)
      ∧ (∀ server, getHomePageSections st server =
          getHomePageSectionsMain st (kavitaApiString st) server)
      ∧ (∀ v, (setKavitaServerAddress st v).kavitaAPI =
          some (createKavitaAPI v))
      ∧ (∀ v q meta server ps, searchRequest { st with kavitaAPI := v } q meta server ps
          = searchRequest st q meta server ps)
      ∧ (∀ v server, getTags { st with kavitaAPI := v } server = getTags st server)
      ∧ (∀ v server, getHomePageSections { st with kavitaAPI := v } server
          = getHomePageSections st server)
      ∧ (∀ v sid meta server, getViewMoreItems { st with kavitaAPI := v } sid meta server
          = getViewMoreItems st sid meta server)
      ∧ (∀ v server time ids fuel,
          filterUpdatedManga { st with kavitaAPI := v } server time ids fuel
          = filterUpdatedManga st server time ids fuel)
      ∧ (∀ v m c server, getChapterDetails { st with kavitaAPI := v } m c server
          = getChapterDetails st m c server)
      ∧ (∀ v req, interceptRequest { st with kavitaAPI := v } req
          = interceptRequest st req) := by
  intro st
  refine ⟨rfl, fun _ _ _ _ => rfl, fun _ => rfl, fun _ => rfl, fun _ _ _ _ _ => rfl,
    fun _ _ => rfl, fun _ _ => rfl, fun _ _ _ _ => rfl, fun _ _ _ _ _ => rfl,
    fun _ _ _ _ => rfl, fun _ _ => rfl⟩

end KavitaSource
